import Mathlib

/-!
Verification of the timetracker transition tool (src/main.rs).

The tool migrates a legacy SQLite productivity database into a redesigned
schema.  We embed the core of `main` shallowly:

* `round6` is the rounding function at src/main.rs:42-45; `f64` values are
  modeled as exact rationals, and Rust's `f64::round` (round half away from
  zero) is modeled by `f64round`.
* The chrono calendar calls at src/main.rs:240-258
  (`Local.with_ymd_and_hms(y, m, d, 0, 0, 0).unwrap()` followed by
  `.iso_week().year()`) are modeled by `validYmd`, `with_ymd_and_hms` over an
  abstract `Timezone`, and the ISO-8601 week-numbering-year computation
  `isoWeekYear`.
* The two row structs are `DBOldRowActivities` and `DBOldRowHistory`
  (src/main.rs:47-64); the inline INSERT parameter lists at
  src/main.rs:219-232 and 238-261 become the pure maps `mapActivity` and
  `mapHistory`.
* The destination SQLite store is modeled by `DestDB` with the constraints
  declared in `SQL_CREATE_ACT` / `SQL_CREATE_HIS` (src/main.rs:19-39):
  `tt_activities` has `id INTEGER PRIMARY KEY`, `tt_history` declares no
  uniqueness constraint.
* The sequencing of `main` (read activities, read history, create tables,
  insert activities, insert history) is modeled by the event list
  `migrationTrace`.
-/

namespace TTool

/-- Rust's `f64::round`: round half away from zero, modeled on exact
rationals.  Used by `round6` (src/main.rs:44). -/
def f64round (q : ℚ) : ℤ :=
  if q < 0 then -⌊-q + 1/2⌋ else ⌊q + 1/2⌋

/-- `round6` from src/main.rs:42-45: `(val * 1_000_000.).round() / 1_000_000.`.
The `f64` argument and result are modeled as exact rationals. -/
def round6 (val : ℚ) : ℚ :=
  (f64round (val * 1000000) : ℚ) / 1000000

/-- Proleptic-Gregorian leap-year test (as in chrono). -/
def isLeap (y : Int) : Bool :=
  y % 4 == 0 && (y % 100 != 0 || y % 400 == 0)

/-- Number of days of month `m` in year `y` (for `1 ≤ m ≤ 12`). -/
def daysInMonth (y m : Int) : Int :=
  if m = 2 then (if isLeap y then 29 else 28)
  else if m = 4 ∨ m = 6 ∨ m = 9 ∨ m = 11 then 30
  else 31

/-- Days in the months of year `y` strictly before month `m`. -/
def cumDaysBefore (leap : Bool) (m : Int) : Int :=
  (if 1 < m then 31 else 0) + (if 2 < m then (if leap then 29 else 28) else 0)
  + (if 3 < m then 31 else 0) + (if 4 < m then 30 else 0)
  + (if 5 < m then 31 else 0) + (if 6 < m then 30 else 0)
  + (if 7 < m then 31 else 0) + (if 8 < m then 31 else 0)
  + (if 9 < m then 30 else 0) + (if 10 < m then 31 else 0)
  + (if 11 < m then 30 else 0)

/-- Ordinal day of the year (Jan 1 = 1) of the date `(y, m, d)`. -/
def dayOfYear (y m d : Int) : Int :=
  cumDaysBefore (isLeap y) m + d

/-- Weekday of January 1 of year `y` in the proleptic Gregorian calendar
(Gauss's formula; 0 = Sunday, 1 = Monday, ..., 6 = Saturday). -/
def jan1weekday (y : Int) : Int :=
  (1 + 5 * ((y - 1) % 4) + 4 * ((y - 1) % 100) + 6 * ((y - 1) % 400)) % 7

/-- ISO weekday (1 = Monday, ..., 7 = Sunday) of the day with ordinal `ord`
in year `y`. -/
def isoWeekday (y ord : Int) : Int :=
  if (jan1weekday y + ord - 1) % 7 = 0 then 7 else (jan1weekday y + ord - 1) % 7

/-- Number of ISO weeks in the ISO week-numbering year `y`: 53 when January 1
falls on a Thursday, or on a Wednesday in a leap year; 52 otherwise. -/
def weeksInIsoYear (y : Int) : Int :=
  if jan1weekday y = 4 ∨ (isLeap y ∧ jan1weekday y = 3) then 53 else 52

/-- Raw ISO week index of the day with ordinal `ord` in year `y`: 0 means the
last week of the previous year, `weeksInIsoYear y + 1` means week 1 of the
next year. -/
def isoWeekNumRaw (y ord : Int) : Int :=
  (ord - isoWeekday y ord + 10) / 7

/-- ISO-8601 week-numbering year of the date `(y, m, d)`.  Models the chrono
computation `date.iso_week().year()` used at src/main.rs:258: the week
containing the first Thursday of January is week 1 of that year, so dates in
the first days of January may belong to the previous ISO year and dates in the
last days of December to the next one. -/
def isoWeekYear (y m d : Int) : Int :=
  if isoWeekNumRaw y (dayOfYear y m d) < 1 then y - 1
  else if isoWeekNumRaw y (dayOfYear y m d) > weeksInIsoYear y then y + 1
  else y

/-- Validity of `(y, m, d)` as accepted by chrono's
`NaiveDate::from_ymd_opt` (proleptic Gregorian, with chrono's year range
`i32::MIN >> 13 ... i32::MAX >> 13`). -/
def validYmd (y m d : Int) : Prop :=
  -262144 ≤ y ∧ y ≤ 262143 ∧ 1 ≤ m ∧ m ≤ 12 ∧ 1 ≤ d ∧ d ≤ daysInMonth y m

instance (y m d : Int) : Decidable (validYmd y m d) := by
  unfold validYmd; exact inferInstance

/-- Model of a chrono timezone (the tool uses `chrono::Local`, whose concrete
offsets depend on the machine configuration, so the offsets are left
abstract).  `offsetAtLocal y m d` is the unique UTC offset in seconds of the
local wall-clock instant `(y, m, d) 00:00:00`, or `none` when no such unique
instant exists (chrono's `LocalResult::None` or `LocalResult::Ambiguous`,
both of which make the `.unwrap()` at src/main.rs:246 panic). -/
structure Timezone where
  offsetAtLocal : Int → Int → Int → Option Int

/-- Model of a chrono `DateTime<Local>`: chrono stores an instant together
with its offset, and `from_local_datetime` produces a value whose local
(naive) components are exactly the requested ones; `Datelike` accessors of a
`DateTime`, including `iso_week`, read the local components.  We therefore
represent the value by its local calendar date plus the offset. -/
structure LocalDateTime where
  year : Int
  month : Int
  day : Int
  offsetSeconds : Int
deriving DecidableEq

/-- Model of `tz.with_ymd_and_hms(y, m, d, 0, 0, 0)` (src/main.rs:240-246)
followed by `.unwrap()`: `none` models a panic (invalid calendar date, or no
unique local midnight). -/
def with_ymd_and_hms (tz : Timezone) (y m d : Int) : Option LocalDateTime :=
  if validYmd y m d then (tz.offsetAtLocal y m d).map (fun o => ⟨y, m, d, o⟩)
  else none

/-- Model of `dtlocal.iso_week().year()` at src/main.rs:258: chrono computes
the ISO week of a `DateTime` from its local calendar date. -/
def iso_week_year_of_datetime (dt : LocalDateTime) : Int :=
  isoWeekYear dt.year dt.month dt.day

/-- A timezone in which local midnight always exists at offset 0 (UTC). -/
def utc : Timezone := ⟨fun _ _ _ => some 0⟩

/-- Row of the legacy `activities` table, src/main.rs:47-54.  `i32` columns
are modeled as `Int`, the `f64` column as an exact rational. -/
structure DBOldRowActivities where
  id : Int
  group_id : Int
  name : String
  added_when : String
  is_activated : Int
  hours_total : ℚ
deriving DecidableEq

/-- Row of the legacy `history` table, src/main.rs:56-64. -/
structure DBOldRowHistory where
  id_activity : Int
  year : Int
  month : Int
  day : Int
  weeknumber : Int
  hours_on_day : ℚ
  date : String
deriving DecidableEq

/-- Row of the destination `tt_activities` table, with the columns of
`SQL_CREATE_ACT` (src/main.rs:19-26). -/
structure NewActivity where
  id : Int
  name : String
  added : String
  isactive : Int
  hourstotal : ℚ
deriving DecidableEq

/-- Row of the destination `tt_history` table, with the columns of
`SQL_CREATE_HIS` (src/main.rs:28-39). -/
structure NewHistoryEntry where
  id : Int
  year : Int
  month : Int
  day : Int
  isoweek : Int
  isoweekyear : Int
  hoursonday : ℚ
  date : String
deriving DecidableEq

/-- The activity mapping performed by the INSERT parameter list at
src/main.rs:219-232: `id`, `name`, `added_when`, `is_activated` pass through
verbatim, `hours_total` is rounded, and `group_id` is not used. -/
def mapActivity (a : DBOldRowActivities) : NewActivity :=
  { id := a.id
    name := a.name
    added := a.added_when
    isactive := a.is_activated
    hourstotal := round6 a.hours_total }

/-- The history mapping performed by the loop body at src/main.rs:238-261.
`none` models a panic: `e.month.try_into().unwrap()` / `e.day.try_into()
.unwrap()` panic on negative values (`i32` to `u32`), and
`with_ymd_and_hms(...).unwrap()` panics when the date is invalid or local
midnight does not uniquely exist.  Otherwise the INSERT parameters copy
`id_activity`, `year`, `month`, `day` and `date` verbatim, copy `weeknumber`
into `isoweek` verbatim, compute `isoweekyear` from the localized date, and
round `hours_on_day`. -/
def mapHistory (tz : Timezone) (e : DBOldRowHistory) : Option NewHistoryEntry :=
  if e.month < 0 ∨ e.day < 0 then none
  else
    (with_ymd_and_hms tz e.year e.month e.day).map fun dt =>
      { id := e.id_activity
        year := e.year
        month := e.month
        day := e.day
        isoweek := e.weeknumber
        isoweekyear := iso_week_year_of_datetime dt
        hoursonday := round6 e.hours_on_day
        date := e.date }

/-- State of the destination SQLite database: which of the two destination
tables exist, and their rows.  The constraints come from the DDL at
src/main.rs:19-39: `tt_activities` declares `id INTEGER PRIMARY KEY`,
`tt_history` declares no uniqueness constraint. -/
structure DestDB where
  hasActTable : Bool
  hasHisTable : Bool
  actRows : List NewActivity
  hisRows : List NewHistoryEntry
deriving DecidableEq

/-- Errors surfaced by the modeled SQLite operations; each makes the
corresponding `.unwrap()` in `main` panic. -/
inductive DBErr where
  | tableAlreadyExists
  | uniqueConstraint
  | noSuchTable
deriving DecidableEq

/-- `db_new.execute(SQL_CREATE_ACT, ())` (src/main.rs:211): a plain
`CREATE TABLE` (no `IF NOT EXISTS`) fails when the table already exists. -/
def createActTable (db : DestDB) : Except DBErr DestDB :=
  if db.hasActTable then Except.error DBErr.tableAlreadyExists
  else Except.ok { db with hasActTable := true }

/-- `db_new.execute(SQL_CREATE_HIS, ())` (src/main.rs:212). -/
def createHisTable (db : DestDB) : Except DBErr DestDB :=
  if db.hasHisTable then Except.error DBErr.tableAlreadyExists
  else Except.ok { db with hasHisTable := true }

/-- The schema-creation step of `main` (src/main.rs:209-213): the two
`CREATE TABLE` statements run only when the destination database *file* did
not exist before the run (`!dbpath_exists`); the store's own state is not
inspected. -/
def ensureSchemaStep (dbpathExists : Bool) (db : DestDB) : Except DBErr DestDB :=
  if dbpathExists then Except.ok db
  else (createActTable db).bind createHisTable

/-- `INSERT INTO tt_activities ...` (src/main.rs:221-231): fails on a missing
table, or with a unique-constraint violation when a row with the same
primary-key `id` is already present. -/
def insertActivity (db : DestDB) (a : NewActivity) : Except DBErr DestDB :=
  if !db.hasActTable then Except.error DBErr.noSuchTable
  else if db.actRows.any (fun r => r.id == a.id) then
    Except.error DBErr.uniqueConstraint
  else Except.ok { db with actRows := db.actRows ++ [a] }

/-- `INSERT INTO tt_history ...` (src/main.rs:248-261): `tt_history` declares
no uniqueness constraint, so the insert appends unconditionally once the
table exists. -/
def insertHistory (db : DestDB) (h : NewHistoryEntry) : Except DBErr DestDB :=
  if !db.hasHisTable then Except.error DBErr.noSuchTable
  else Except.ok { db with hisRows := db.hisRows ++ [h] }

/-- The activity-insert loop at src/main.rs:219-232.  On the first failing
insert the process panics; the error carries the database state reached at
that point (each successful `execute` is already committed). -/
def insertActivitiesLoop (db : DestDB) :
    List NewActivity → Except (DBErr × DestDB) DestDB
  | [] => Except.ok db
  | a :: rest =>
    match insertActivity db a with
    | Except.error e => Except.error (e, db)
    | Except.ok db' => insertActivitiesLoop db' rest

/-- One observable step of `main`, in order to state sequencing properties:
reading a legacy row, creating a destination table, or inserting a mapped
row. -/
inductive Event where
  | readActivityRow (a : DBOldRowActivities)
  | readHistoryRow (h : DBOldRowHistory)
  | createTableOp (activitiesTable : Bool)
  | insertActivityRow (a : NewActivity)
  | insertHistoryRow (h : NewHistoryEntry)
deriving DecidableEq

/-- Reads from the legacy store. -/
def Event.isRead : Event → Bool
  | .readActivityRow _ => true
  | .readHistoryRow _ => true
  | _ => false

/-- Writes to the destination store (DDL or inserts). -/
def Event.isWrite : Event → Bool
  | .createTableOp _ => true
  | .insertActivityRow _ => true
  | .insertHistoryRow _ => true
  | _ => false

/-- Activity inserts. -/
def Event.isActivityInsert : Event → Bool
  | .insertActivityRow _ => true
  | _ => false

/-- History inserts. -/
def Event.isHistoryInsert : Event → Bool
  | .insertHistoryRow _ => true
  | _ => false

/-- The read phase of `main`: all `activities` rows (src/main.rs:157-174)
followed by all `history` rows (src/main.rs:180-197). -/
def readsPart (oldact : List DBOldRowActivities)
    (oldhis : List DBOldRowHistory) : List Event :=
  oldact.map Event.readActivityRow ++ oldhis.map Event.readHistoryRow

/-- The schema phase of `main` (src/main.rs:209-213): both tables are
created when the destination file is new, nothing happens otherwise. -/
def schemaPart (dbpathExists : Bool) : List Event :=
  if dbpathExists then []
  else [Event.createTableOp true, Event.createTableOp false]

/-- The activity-insert phase of `main` (src/main.rs:219-232). -/
def actInsertPart (oldact : List DBOldRowActivities) : List Event :=
  oldact.map (fun a => Event.insertActivityRow (mapActivity a))

/-- The history-insert phase of `main` (src/main.rs:238-262); entries on
which the loop body would panic produce no insert. -/
def hisInsertPart (tz : Timezone) (oldhis : List DBOldRowHistory) :
    List Event :=
  oldhis.filterMap (fun e => (mapHistory tz e).map Event.insertHistoryRow)

/-- The sequence of observable steps of a full run of `main`
(src/main.rs:157-262), in program order: read all `activities` rows, read
all `history` rows, create the destination tables when the destination
file is new, insert all mapped activities, then insert all mapped history
entries. -/
def migrationTrace (dbpathExists : Bool) (tz : Timezone)
    (oldact : List DBOldRowActivities) (oldhis : List DBOldRowHistory) :
    List Event :=
  readsPart oldact oldhis ++ schemaPart dbpathExists
  ++ actInsertPart oldact ++ hisInsertPart tz oldhis

/-- A sample legacy activity row (the end-to-end scenario of the spec). -/
def oldActEx : DBOldRowActivities := ⟨1, 9, "Coding", "2020-01-01", 1, 10⟩

/-- A sample legacy history row (the end-to-end scenario of the spec). -/
def oldHisEx : DBOldRowHistory := ⟨1, 2018, 12, 31, 1, 2, "2018-12-31"⟩

/-- Rounding half away from zero maps an integer to itself. -/
theorem f64round_intCast (n : ℤ) : f64round (n : ℚ) = n := by
  unfold f64round
  have h0 : (⌊(1 : ℚ)/2⌋ : ℤ) = 0 := by norm_num
  split
  · have he : (-(n : ℚ) + 1/2) = ((-n : ℤ) : ℚ) + 1/2 := by push_cast; ring
    rw [he, Int.floor_int_add, h0]
    ring
  · have he : ((n : ℚ) + 1/2) = ((n : ℤ) : ℚ) + 1/2 := by norm_num
    rw [he, Int.floor_int_add, h0]
    ring

/-- C8: the six-decimal rounding is idempotent: for every `f64` value `v`
(modeled as an exact rational), `round6 (round6 v) = round6 v`, where
`round6 v` is `round (v * 1000000) / 1000000` (src/main.rs:42-45). -/
theorem round6_idempotent (v : ℚ) : round6 (round6 v) = round6 v := by
  unfold round6
  rw [div_mul_cancel₀ _ (by norm_num : (1000000 : ℚ) ≠ 0), f64round_intCast]

/-- C2: the activity mapping (src/main.rs:219-232) copies `id`, `name`,
`added_when` (as `added`) and `is_activated` (as `isactive`) verbatim,
rounds only `hours_total` (as `hourstotal`), and its result does not depend
on `group_id` in any field: the right-hand side never mentions `group_id`. -/
theorem mapActivity_spec (id group_id : Int) (name added_when : String)
    (is_activated : Int) (hours_total : ℚ) :
    mapActivity ⟨id, group_id, name, added_when, is_activated, hours_total⟩ =
      { id := id, name := name, added := added_when,
        isactive := is_activated, hourstotal := round6 hours_total } := rfl

/-- Evaluation lemma for `mapHistory` on a non-panicking entry. -/
theorem mapHistory_eval (tz : Timezone) (e : DBOldRowHistory) (o : Int)
    (hv : validYmd e.year e.month e.day)
    (ho : tz.offsetAtLocal e.year e.month e.day = some o) :
    mapHistory tz e = some
      { id := e.id_activity, year := e.year, month := e.month, day := e.day,
        isoweek := e.weeknumber,
        isoweekyear := isoWeekYear e.year e.month e.day,
        hoursonday := round6 e.hours_on_day, date := e.date } := by
  have hv' := hv
  unfold validYmd at hv'
  have hm : ¬(e.month < 0 ∨ e.day < 0) := by omega
  unfold mapHistory with_ymd_and_hms
  rw [if_neg hm, if_pos hv, ho]
  rfl

/-- C1: whenever the history loop body does not panic (valid date, local
midnight exists), the mapped record copies `id_activity`, `year`, `month`,
`day` and `date` verbatim, copies `isoweek` verbatim from the legacy
`weeknumber` (never recomputing it), rounds `hours_on_day`, and computes
`isoweekyear` as the ISO-8601 week-numbering year of `(year, month, day)`. -/
theorem mapHistory_spec (tz : Timezone) (e : DBOldRowHistory) (o : Int)
    (hv : validYmd e.year e.month e.day)
    (ho : tz.offsetAtLocal e.year e.month e.day = some o) :
    mapHistory tz e = some
      { id := e.id_activity, year := e.year, month := e.month, day := e.day,
        isoweek := e.weeknumber,
        isoweekyear := isoWeekYear e.year e.month e.day,
        hoursonday := round6 e.hours_on_day, date := e.date } :=
  mapHistory_eval tz e o hv ho

/-- Witness for C1 at the entry `(1, 2018, 12, 31, 1, 2, "2018-12-31")`
under UTC. -/
theorem mapHistory_spec_witness :
    validYmd 2018 12 31 ∧
    utc.offsetAtLocal 2018 12 31 = some 0 ∧
    mapHistory utc ⟨1, 2018, 12, 31, 1, 2, "2018-12-31"⟩ = some
      { id := 1, year := 2018, month := 12, day := 31, isoweek := 1,
        isoweekyear := isoWeekYear 2018 12 31,
        hoursonday := round6 2, date := "2018-12-31" } :=
  ⟨by decide, rfl,
    mapHistory_spec utc ⟨1, 2018, 12, 31, 1, 2, "2018-12-31"⟩ 0 (by decide) rfl⟩

/-- C7: a history entry whose `(year, month, day)` is not a valid
proleptic-Gregorian date (including negative or out-of-range month or day)
makes the loop body panic (`none`) instead of wrapping to another date:
either the `try_into().unwrap()` at src/main.rs:243-244 or the `.unwrap()`
of the invalid chrono date at src/main.rs:246 fails. -/
theorem mapHistory_invalid_date_none (tz : Timezone) (e : DBOldRowHistory)
    (h : ¬(1 ≤ e.month ∧ e.month ≤ 12 ∧ 1 ≤ e.day ∧
           e.day ≤ daysInMonth e.year e.month)) :
    mapHistory tz e = none := by
  unfold mapHistory with_ymd_and_hms
  by_cases hneg : e.month < 0 ∨ e.day < 0
  · rw [if_pos hneg]
  · have hv : ¬ validYmd e.year e.month e.day := by
      intro hv
      unfold validYmd at hv
      exact h ⟨hv.2.2.1, hv.2.2.2.1, hv.2.2.2.2.1, hv.2.2.2.2.2⟩
    rw [if_neg hneg, if_neg hv]
    rfl

/-- Witness for C7 at the impossible date `(2018, 13, 1)`. -/
theorem mapHistory_invalid_date_none_witness :
    ¬((1 : Int) ≤ 13 ∧ (13 : Int) ≤ 12 ∧ (1 : Int) ≤ 1 ∧
      (1 : Int) ≤ daysInMonth 2018 13) ∧
    mapHistory utc ⟨1, 2018, 13, 1, 1, 0, "bad"⟩ = none :=
  ⟨by decide,
    mapHistory_invalid_date_none utc ⟨1, 2018, 13, 1, 1, 0, "bad"⟩ (by decide)⟩

/-- C10: localizing a valid date to local midnight and taking the ISO week
of that instant yields exactly the ISO-8601 week-numbering year of the plain
civil date, for every timezone in which local midnight exists; in particular
two runs under different such timezones agree. -/
theorem isoweekyear_timezone_independent (tz tz' : Timezone) (y m d : Int)
    (dt dt' : LocalDateTime)
    (h : with_ymd_and_hms tz y m d = some dt)
    (h' : with_ymd_and_hms tz' y m d = some dt') :
    iso_week_year_of_datetime dt = isoWeekYear y m d ∧
    iso_week_year_of_datetime dt' = iso_week_year_of_datetime dt := by
  unfold with_ymd_and_hms at h h'
  by_cases hv : validYmd y m d
  · rw [if_pos hv, Option.map_eq_some'] at h h'
    obtain ⟨o, -, rfl⟩ := h
    obtain ⟨o', -, rfl⟩ := h'
    exact ⟨rfl, rfl⟩
  · rw [if_neg hv] at h
    cases h

/-- Witness for C10: July 15, 2020 under UTC and under a fixed UTC-5
timezone. -/
theorem isoweekyear_timezone_independent_witness :
    with_ymd_and_hms utc 2020 7 15 = some ⟨2020, 7, 15, 0⟩ ∧
    with_ymd_and_hms ⟨fun _ _ _ => some (-18000)⟩ 2020 7 15 =
      some ⟨2020, 7, 15, -18000⟩ ∧
    (iso_week_year_of_datetime ⟨2020, 7, 15, 0⟩ = isoWeekYear 2020 7 15 ∧
     iso_week_year_of_datetime ⟨2020, 7, 15, -18000⟩ =
       iso_week_year_of_datetime ⟨2020, 7, 15, 0⟩) :=
  ⟨by decide, by decide,
    isoweekyear_timezone_independent utc ⟨fun _ _ _ => some (-18000)⟩
      2020 7 15 ⟨2020, 7, 15, 0⟩ ⟨2020, 7, 15, -18000⟩
      (by decide) (by decide)⟩

/-- C5 counterexample: against a pre-existing destination database file
whose tables do not exist yet (for example an empty file), the
schema-creation step of `main` performs no schema operation at all — it
succeeds, but afterwards neither destination table exists, contradicting
"creates the two destination tables whenever they do not already exist ...
and afterwards both tables exist". -/
theorem ensureSchemaStep_preexisting_cex :
    ensureSchemaStep true ⟨false, false, [], []⟩ =
      Except.ok (⟨false, false, [], []⟩ : DestDB) ∧
    (⟨false, false, [], []⟩ : DestDB).hasActTable = false ∧
    (⟨false, false, [], []⟩ : DestDB).hasHisTable = false :=
  ⟨rfl, rfl, rfl⟩

/-- C5 amended: the schema-creation step creates the two destination tables
only when the destination database *file* did not exist before the run (in
which case the fresh store contains no tables and both creates succeed); when
the file pre-existed it performs no schema operation in any store state —
it neither fails nor alters the schema, but the tables exist afterwards only
if the pre-existing file already contained them. -/
theorem ensureSchemaStep_amended (db : DestDB) :
    ensureSchemaStep true db = Except.ok db ∧
    ensureSchemaStep false ⟨false, false, [], []⟩ =
      Except.ok ⟨true, true, [], []⟩ :=
  ⟨rfl, rfl⟩

/-- C6: re-running the migration against a destination already populated by
a previous run (so the first activity to insert has a primary-key `id`
already present in `tt_activities`) fails on the very first activity insert
with a unique-constraint error, with the destination still in its
pre-insert state; a duplicate history insert, by contrast, succeeds
silently, because `tt_history` declares no uniqueness constraint. -/
theorem rerun_duplicate_behavior (db : DestDB) (a : NewActivity)
    (rest : List NewActivity) (h : NewHistoryEntry)
    (hact : db.hasActTable = true)
    (hdup : db.actRows.any (fun r => r.id == a.id) = true)
    (hhis : db.hasHisTable = true) :
    insertActivitiesLoop db (a :: rest) =
      Except.error (DBErr.uniqueConstraint, db) ∧
    insertHistory db h =
      Except.ok { db with hisRows := db.hisRows ++ [h] } := by
  have hins : insertActivity db a = Except.error DBErr.uniqueConstraint := by
    unfold insertActivity
    rw [hact, hdup]
    rfl
  constructor
  · unfold insertActivitiesLoop
    rw [hins]
  · unfold insertHistory
    rw [hhis]
    rfl

/-- Witness for C6: one already-present activity row, one history row that
is inserted again without complaint. -/
theorem rerun_duplicate_behavior_witness :
    insertActivitiesLoop ⟨true, true, [⟨1, "Coding", "2020-01-01", 1, 10⟩], []⟩
        [⟨1, "Coding", "2020-01-01", 1, 10⟩] =
      Except.error (DBErr.uniqueConstraint,
        ⟨true, true, [⟨1, "Coding", "2020-01-01", 1, 10⟩], []⟩) ∧
    insertHistory ⟨true, true, [⟨1, "Coding", "2020-01-01", 1, 10⟩], []⟩
        ⟨1, 2018, 12, 31, 1, 2019, 2, "2018-12-31"⟩ =
      Except.ok ⟨true, true, [⟨1, "Coding", "2020-01-01", 1, 10⟩],
        [⟨1, 2018, 12, 31, 1, 2019, 2, "2018-12-31"⟩]⟩ :=
  rerun_duplicate_behavior
    ⟨true, true, [⟨1, "Coding", "2020-01-01", 1, 10⟩], []⟩
    ⟨1, "Coding", "2020-01-01", 1, 10⟩ []
    ⟨1, 2018, 12, 31, 1, 2019, 2, "2018-12-31"⟩
    rfl (by decide) rfl

/-- The ISO weekday is always between 1 and 7. -/
theorem isoWeekday_bounds (y ord : Int) :
    1 ≤ isoWeekday y ord ∧ isoWeekday y ord ≤ 7 := by
  unfold isoWeekday
  have h1 : 0 ≤ (jan1weekday y + ord - 1) % 7 :=
    Int.emod_nonneg _ (by norm_num)
  have h2 : (jan1weekday y + ord - 1) % 7 < 7 :=
    Int.emod_lt_of_pos _ (by norm_num)
  split <;> omega

/-- July 15 is day 196 of a common year and day 197 of a leap year. -/
theorem dayOfYear_july15 (y : Int) :
    dayOfYear y 7 15 = 197 ∨ dayOfYear y 7 15 = 196 := by
  cases hl : isLeap y
  · right; norm_num [dayOfYear, cumDaysBefore, hl]
  · left; norm_num [dayOfYear, cumDaysBefore, hl]

/-- Every ISO week-numbering year has 52 or 53 weeks. -/
theorem weeksInIsoYear_cases (y : Int) :
    weeksInIsoYear y = 52 ∨ weeksInIsoYear y = 53 := by
  unfold weeksInIsoYear
  split
  · right; rfl
  · left; rfl

/-- A date strictly inside the year, such as July 15, always belongs to the
ISO week-numbering year equal to its calendar year. -/
theorem isoWeekYear_july15 (y : Int) : isoWeekYear y 7 15 = y := by
  have hb := isoWeekday_bounds y (dayOfYear y 7 15)
  have hw := weeksInIsoYear_cases y
  have hraw : isoWeekNumRaw y (dayOfYear y 7 15) = 28 ∨
      isoWeekNumRaw y (dayOfYear y 7 15) = 29 := by
    unfold isoWeekNumRaw
    rcases dayOfYear_july15 y with h | h <;> rw [h] at hb ⊢ <;> omega
  unfold isoWeekYear
  split
  · omega
  · split
    · omega
    · rfl

/-- C3: for a valid calendar date the computed ISO week-numbering year is
the calendar year, its predecessor or its successor; for July 15 it is the
calendar year itself; December 31, 2018 belongs to ISO year 2019 and
January 1, 2018 to ISO year 2018. -/
theorem isoWeekYear_props (y m d : Int) (_hv : validYmd y m d) :
    (isoWeekYear y m d = y - 1 ∨ isoWeekYear y m d = y ∨
      isoWeekYear y m d = y + 1) ∧
    isoWeekYear y 7 15 = y ∧
    isoWeekYear 2018 12 31 = 2019 ∧ isoWeekYear 2018 1 1 = 2018 := by
  refine ⟨?_, isoWeekYear_july15 y, by decide, by decide⟩
  unfold isoWeekYear
  split
  · exact Or.inl rfl
  · split
    · exact Or.inr (Or.inr rfl)
    · exact Or.inr (Or.inl rfl)

/-- Witness for C3 at the valid leap-day date February 29, 2020. -/
theorem isoWeekYear_props_witness :
    validYmd 2020 2 29 ∧
    ((isoWeekYear 2020 2 29 = 2019 ∨ isoWeekYear 2020 2 29 = 2020 ∨
       isoWeekYear 2020 2 29 = 2021) ∧
     isoWeekYear 2020 7 15 = 2020 ∧
     isoWeekYear 2018 12 31 = 2019 ∧ isoWeekYear 2018 1 1 = 2018) :=
  ⟨by decide, isoWeekYear_props 2020 2 29 (by decide)⟩

/-- C4: the spec's end-to-end history scenario, with the `f64` input
`2.0000005` modeled as the exact rational `20000005/10000000`: the entry
maps to `(1, 2018, 12, 31, 1, 2019, 2.000001, "2018-12-31")`; in particular
the six-decimal rounding turns `2.0000005` into `2.000001`. -/
theorem mapHistory_scenario :
    mapHistory utc ⟨1, 2018, 12, 31, 1, 20000005/10000000, "2018-12-31"⟩ =
      some ⟨1, 2018, 12, 31, 1, 2019, 2000001/1000000, "2018-12-31"⟩ := by
  have h6 : round6 (20000005/10000000 : ℚ) = 2000001/1000000 := by
    unfold round6 f64round
    have h1 : (20000005/10000000 * 1000000 : ℚ) = 4000001/2 := by norm_num
    rw [h1, if_neg (by norm_num : ¬(4000001/2 : ℚ) < 0)]
    have h2 : (4000001/2 + 1/2 : ℚ) = ((2000001 : ℤ) : ℚ) := by
      push_cast
      norm_num
    rw [h2, Int.floor_intCast]
    norm_num
  have h := mapHistory_eval utc
    ⟨1, 2018, 12, 31, 1, 20000005/10000000, "2018-12-31"⟩ 0 (by decide) rfl
  rw [h]
  have hiso : isoWeekYear 2018 12 31 = 2019 := by decide
  simp [hiso, h6]

/-- If no element of the suffix satisfies `P`, an index holding `P` lies in
the prefix. -/
theorem split_index_lt {α : Type} (P : α → Bool) (l l1 l2 : List α)
    (hsplit : l = l1 ++ l2) (hl : ∀ e ∈ l2, P e = false)
    (i : Nat) (hi : i < l.length) (h : P l[i] = true) : i < l1.length := by
  subst hsplit
  by_contra hge
  push_neg at hge
  have hi2 : i - l1.length < l2.length := by
    rw [List.length_append] at hi
    omega
  rw [List.getElem_append_right hge] at h
  have hfalse := hl _ (List.getElem_mem hi2)
  rw [hfalse] at h
  cases h

/-- If no element of the prefix satisfies `P`, an index holding `P` lies in
the suffix. -/
theorem split_index_ge {α : Type} (P : α → Bool) (l l1 l2 : List α)
    (hsplit : l = l1 ++ l2) (hl : ∀ e ∈ l1, P e = false)
    (i : Nat) (hi : i < l.length) (h : P l[i] = true) : l1.length ≤ i := by
  subst hsplit
  by_contra hlt
  push_neg at hlt
  rw [List.getElem_append_left hlt] at h
  have hfalse := hl _ (List.getElem_mem hlt)
  rw [hfalse] at h
  cases h

/-- Read events are not writes. -/
theorem readsPart_not_write (oldact : List DBOldRowActivities)
    (oldhis : List DBOldRowHistory) :
    ∀ ev ∈ readsPart oldact oldhis, Event.isWrite ev = false := by
  intro ev hev
  rcases List.mem_append.mp hev with hm | hm <;>
    obtain ⟨x, -, rfl⟩ := List.mem_map.mp hm <;> rfl

/-- Read events are not history inserts either. -/
theorem readsPart_not_hisInsert (oldact : List DBOldRowActivities)
    (oldhis : List DBOldRowHistory) :
    ∀ ev ∈ readsPart oldact oldhis, Event.isHistoryInsert ev = false := by
  intro ev hev
  rcases List.mem_append.mp hev with hm | hm <;>
    obtain ⟨x, -, rfl⟩ := List.mem_map.mp hm <;> rfl

/-- Schema events are neither reads nor history inserts. -/
theorem schemaPart_shape (dbpathExists : Bool) :
    ∀ ev ∈ schemaPart dbpathExists,
      Event.isRead ev = false ∧ Event.isHistoryInsert ev = false := by
  intro ev hev
  unfold schemaPart at hev
  split at hev
  · cases hev
  · simp only [List.mem_cons, List.not_mem_nil, or_false] at hev
    rcases hev with rfl | rfl <;> exact ⟨rfl, rfl⟩

/-- Activity-insert events are neither reads nor history inserts. -/
theorem actInsertPart_shape (oldact : List DBOldRowActivities) :
    ∀ ev ∈ actInsertPart oldact,
      Event.isRead ev = false ∧ Event.isHistoryInsert ev = false := by
  intro ev hev
  obtain ⟨x, -, rfl⟩ := List.mem_map.mp hev
  exact ⟨rfl, rfl⟩

/-- History-insert events are neither reads nor activity inserts. -/
theorem hisInsertPart_shape (tz : Timezone) (oldhis : List DBOldRowHistory) :
    ∀ ev ∈ hisInsertPart tz oldhis,
      Event.isRead ev = false ∧ Event.isActivityInsert ev = false := by
  intro ev hev
  obtain ⟨x, -, hx⟩ := List.mem_filterMap.mp hev
  rcases hmo : mapHistory tz x with _ | v <;> rw [hmo] at hx
  · cases hx
  · cases hx
    exact ⟨rfl, rfl⟩

/-- C9: in every run, every read of a legacy row precedes every write to
the destination, and every activity insert precedes every history insert:
if position `i` of the run's step sequence is a read and position `j` a
write, or `i` an activity insert and `j` a history insert, then `i < j`. -/
theorem reads_precede_writes (dbpathExists : Bool) (tz : Timezone)
    (oldact : List DBOldRowActivities) (oldhis : List DBOldRowHistory)
    (i j : Nat)
    (hi : i < (migrationTrace dbpathExists tz oldact oldhis).length)
    (hj : j < (migrationTrace dbpathExists tz oldact oldhis).length)
    (h : (Event.isRead (migrationTrace dbpathExists tz oldact oldhis)[i] = true ∧
          Event.isWrite (migrationTrace dbpathExists tz oldact oldhis)[j] = true) ∨
         (Event.isActivityInsert
            (migrationTrace dbpathExists tz oldact oldhis)[i] = true ∧
          Event.isHistoryInsert
            (migrationTrace dbpathExists tz oldact oldhis)[j] = true)) :
    i < j := by
  rcases h with ⟨hr, hw⟩ | ⟨ha, hh⟩
  · have h1 : i < (readsPart oldact oldhis).length := by
      refine split_index_lt Event.isRead _ (readsPart oldact oldhis)
        (schemaPart dbpathExists ++ (actInsertPart oldact
          ++ hisInsertPart tz oldhis))
        (by simp [migrationTrace, List.append_assoc]) ?_ i hi hr
      intro ev hev
      rcases List.mem_append.mp hev with hm | hm
      · exact (schemaPart_shape dbpathExists ev hm).1
      · rcases List.mem_append.mp hm with hm2 | hm2
        · exact (actInsertPart_shape oldact ev hm2).1
        · exact (hisInsertPart_shape tz oldhis ev hm2).1
    have h2 : (readsPart oldact oldhis).length ≤ j := by
      refine split_index_ge Event.isWrite _ (readsPart oldact oldhis)
        (schemaPart dbpathExists ++ (actInsertPart oldact
          ++ hisInsertPart tz oldhis))
        (by simp [migrationTrace, List.append_assoc]) ?_ j hj hw
      exact readsPart_not_write oldact oldhis
    omega
  · have h1 : i < (readsPart oldact oldhis ++ (schemaPart dbpathExists
        ++ actInsertPart oldact)).length := by
      refine split_index_lt Event.isActivityInsert _ _
        (hisInsertPart tz oldhis)
        (by simp [migrationTrace, List.append_assoc]) ?_ i hi ha
      intro ev hev
      exact (hisInsertPart_shape tz oldhis ev hev).2
    have h2 : (readsPart oldact oldhis ++ (schemaPart dbpathExists
        ++ actInsertPart oldact)).length ≤ j := by
      refine split_index_ge Event.isHistoryInsert _ _
        (hisInsertPart tz oldhis)
        (by simp [migrationTrace, List.append_assoc]) ?_ j hj hh
      intro ev hev
      rcases List.mem_append.mp hev with hm | hm
      · exact readsPart_not_hisInsert oldact oldhis ev hm
      · rcases List.mem_append.mp hm with hm2 | hm2
        · exact (schemaPart_shape dbpathExists ev hm2).2
        · exact (actInsertPart_shape oldact ev hm2).2
    omega

/-- Witness for C9: a one-activity, one-history run into a fresh store;
position 0 is the activity read, position 2 the first table creation. -/
theorem reads_precede_writes_witness :
    (0 : Nat) < (migrationTrace false utc [oldActEx] [oldHisEx]).length ∧
    (2 : Nat) < (migrationTrace false utc [oldActEx] [oldHisEx]).length ∧
    (0 : Nat) < 2 :=
  ⟨by decide, by decide,
    reads_precede_writes false utc [oldActEx] [oldHisEx] 0 2
      (by decide) (by decide) (Or.inl ⟨by decide, by decide⟩)⟩

end TTool
